import Mathlib

/-!
# Verification of the KVSHS-APP password-reset core

Shallow embedding of the two-table data-access layer (`src/lib/users.ts`)
and the three-step reset-flow controller (the `ForgotPassword` client
component). The backing store (Supabase) is modelled as an explicit
database value threaded through each operation; backing-store failures,
which are external, are injected as `Option Err` parameters. Time is
a `Nat` counted in milliseconds.
-/

deriving instance DecidableEq for Except

namespace KVSHS

/-- A backing-store / runtime error: Supabase errors carry a `code` string,
plain JS `Error` values do not; both carry a `message`. -/
structure Err where
  code : Option String
  message : String
deriving DecidableEq, Repr

/-- Account approval status (`'Pending' | 'Approved'` in `users.ts`). -/
inductive Status where
  | Pending
  | Approved
deriving DecidableEq, Repr

/-- Row of the `AppUsers` table (interface `AppUser` in `users.ts`). -/
structure AppUser where
  full_name : String
  email : String
  password : String
  status : Status
deriving DecidableEq, Repr

/-- Row of the `password_reset_otps` table (interface `PasswordResetOtp`
in `users.ts`); `created_at` and `expires_at` are milliseconds. -/
structure PasswordResetOtp where
  id : String
  email : String
  otp : String
  created_at : Nat
  expires_at : Nat
  used : Bool
deriving DecidableEq, Repr

/-- The backing relational store: the two tables the layer touches. -/
structure DB where
  users : List AppUser
  otps : List PasswordResetOtp
deriving DecidableEq, Repr

/-- Whether `pat` occurs at the head of `hay` (character lists). -/
def leadMatch : List Char → List Char → Bool
  | _, [] => true
  | [], _ :: _ => false
  | c :: cs, d :: ds => c = d && leadMatch cs ds

/-- Whether `pat` occurs anywhere in `hay` (character lists). -/
def occursIn : List Char → List Char → Bool
  | [], pat => pat.isEmpty
  | c :: cs, pat => leadMatch (c :: cs) pat || occursIn cs pat

/-- JavaScript `String.prototype.includes`: substring test. -/
def strIncludes (s pat : String) : Bool :=
  occursIn s.toList pat.toList

/-- Embedding of `getUserByEmail` (`users.ts` lines 26-37): a `.single()` select on
`AppUsers` filtered by email. `.single()` yields error code `PGRST116`
unless exactly one row matches; the code maps that error to `null` and
rethrows every other error. `fail` injects an error from the backing
transport. -/
def getUserByEmail (email : String) (db : DB) (fail : Option Err) :
    Except Err (Option AppUser) :=
  match fail with
  | some e => if e.code = some "PGRST116" then .ok none else .error e
  | none =>
    match db.users.filter (fun u => u.email = email) with
    | [u] => .ok (some u)
    | _ => .ok none

/-- The `new Error('User not found')` thrown by `resetPassword`. -/
def userNotFoundErr : Err := { code := none, message := "User not found" }

/-- Embedding of `resetPassword` (`users.ts` lines 48-65): fetches the user via
`getUserByEmail`, throws `'User not found'` when absent, otherwise updates
password and forces status to Pending on every row matching the email.
`failLookup` / `failUpdate` inject backing errors into the two round
trips; an error leaves the store unchanged. -/
def resetPassword (email newPassword : String) (db : DB)
    (failLookup failUpdate : Option Err) : Except Err Unit × DB :=
  match getUserByEmail email db failLookup with
  | .error e => (.error e, db)
  | .ok none => (.error userNotFoundErr, db)
  | .ok (some _) =>
    match failUpdate with
    | some e => (.error e, db)
    | none =>
      (.ok (), { db with users := db.users.map (fun u =>
        if u.email = email then
          { u with password := newPassword, status := Status.Pending }
        else u) })

/-- The human-readable error `createPasswordResetOtp` raises on an
RLS/permission-style failure. -/
def rlsErr : Err :=
  { code := none
    message := "Database permission error. Please disable RLS for password_reset_otps table or check your Supabase policies." }

/-- The row the insert in `createPasswordResetOtp` stores: `expires_at`
is now + 10 minutes (`10 * 60 * 1000` ms); `id` and `created_at` are
assigned by the store and `used` defaults to `false`. -/
def mkOtpRow (email otp : String) (now : Nat) (newId : String) :
    PasswordResetOtp :=
  { id := newId, email := email, otp := otp, created_at := now
    expires_at := now + 10 * 60 * 1000, used := false }

/-- Embedding of `createPasswordResetOtp` (`users.ts` lines 76-105): inserts one OTP
row and returns it; when the backing store fails with code `'42501'` or a
message containing `'permission'`, throws the distinguished `rlsErr`
instead of the raw error. -/
def createPasswordResetOtp (email otp : String) (now : Nat) (newId : String)
    (db : DB) (fail : Option Err) : Except Err PasswordResetOtp × DB :=
  match fail with
  | some e =>
    if e.code = some "42501" || strIncludes e.message "permission" then
      (.error rlsErr, db)
    else (.error e, db)
  | none =>
    let row := mkOtpRow email otp now newId
    (.ok row, { db with otps := db.otps ++ [row] })

/-- The rows the select in `verifyPasswordResetOtp` can return: same
email, same code, `used = false`, `expires_at` strictly in the future. -/
def otpMatches (email otp : String) (now : Nat) (db : DB) :
    List PasswordResetOtp :=
  db.otps.filter (fun r =>
    r.email = email && r.otp = otp && r.used = false && now < r.expires_at)

/-- Of two rows, the one with the larger `created_at` (first on a tie). -/
def newerOf (a b : PasswordResetOtp) : PasswordResetOtp :=
  if a.created_at < b.created_at then b else a

/-- Semantics of `ORDER BY created_at DESC LIMIT 1` + `.single()`: the row with the
greatest `created_at`, `none` on an empty result set. -/
def pickNewest : List PasswordResetOtp → Option PasswordResetOtp
  | [] => none
  | r :: rs => some (rs.foldl newerOf r)

/-- Sets `used := true` on every row whose `id` matches (the `UPDATE ...
WHERE id = ...` issued by `verifyPasswordResetOtp`). -/
def markUsed (db : DB) (id : String) : DB :=
  { db with otps := db.otps.map (fun r =>
    if r.id = id then { r with used := true } else r) }

/-- Embedding of `verifyPasswordResetOtp` (`users.ts` lines 107-130): selects the
newest matching unused unexpired row; any select error or empty result
returns `false`. On a match it marks the row used and returns `true`;
an error in the mark-as-used update is thrown. -/
def verifyPasswordResetOtp (email otp : String) (now : Nat) (db : DB)
    (failSelect failUpdate : Option Err) : Except Err Bool × DB :=
  match failSelect with
  | some _ => (.ok false, db)
  | none =>
    match pickNewest (otpMatches email otp now db) with
    | none => (.ok false, db)
    | some r =>
      match failUpdate with
      | some e => (.error e, db)
      | none => (.ok true, markUsed db r.id)

/-- Embedding of `cleanupExpiredOtps` (`users.ts` lines 132-139): deletes every row
with `expires_at < now`; keeps the rest. -/
def cleanupExpiredOtps (now : Nat) (db : DB) (fail : Option Err) :
    Except Err Unit × DB :=
  match fail with
  | some e => (.error e, db)
  | none =>
    (.ok (),
      { db with otps := db.otps.filter (fun r => !(decide (r.expires_at < now))) })

/-! ## Reset-flow controller (the `ForgotPassword` client component) -/

/-- The three values of the `step` state variable. -/
inductive Step where
  | email
  | otp
  | password
deriving DecidableEq, Repr

/-- The `formData` state variable: the four controlled form fields. -/
structure FormData where
  email : String
  otp : String
  newPassword : String
  confirmPassword : String
deriving DecidableEq, Repr

/-- The initial / cleared form: every field the empty string. -/
def emptyForm : FormData :=
  { email := "", otp := "", newPassword := "", confirmPassword := "" }

/-- Controller state: form fields plus the current step. -/
structure ControllerState where
  formData : FormData
  step : Step
deriving DecidableEq, Repr

/-- A `Swal.fire` notice: icon, title and text as shown to the user. -/
structure Notice where
  icon : String
  title : String
  text : String
deriving DecidableEq, Repr

def missingEmailNotice : Notice :=
  { icon := "error", title := "Missing Email", text := "Please enter your email address." }

def userNotFoundNotice : Notice :=
  { icon := "error", title := "User Not Found", text := "No account found with this email address." }

def otpSentNotice : Notice :=
  { icon := "success", title := "OTP Sent", text := "Please check your email for the OTP." }

def missingOtpNotice : Notice :=
  { icon := "error", title := "Missing OTP", text := "Please enter the OTP." }

def invalidOtpNotice : Notice :=
  { icon := "error", title := "Invalid OTP", text := "The OTP you entered is incorrect or has expired." }

def verifyFailedNotice : Notice :=
  { icon := "error", title := "Error", text := "Failed to verify OTP. Please try again." }

def missingFieldsNotice : Notice :=
  { icon := "error", title := "Missing Fields", text := "Please fill in all fields." }

def passwordMismatchNotice : Notice :=
  { icon := "error", title := "Password Mismatch", text := "New password and confirm password do not match." }

def resetSuccessNotice : Notice :=
  { icon := "success", title := "Password Reset Successful", text := "Your password has been reset. Please wait for admin approval before logging in." }

def resetFailedNotice : Notice :=
  { icon := "error", title := "Error", text := "Failed to reset password. Please try again." }

/-- The message the `handleSendOtp` catch block shows for a caught error
(the `errorMessage` classification at lines 104-114 of the component). -/
def sendOtpErrorMessage (e : Err) : String :=
  if strIncludes e.message "permission" || strIncludes e.message "RLS" then
    "Database permission error. Please contact administrator to disable RLS for password_reset_otps table."
  else if strIncludes e.message "table does not exist" then
    "Database table not found. Please contact administrator to create password_reset_otps table."
  else
    "Failed to send OTP: " ++ e.message

def sendOtpErrorNotice (e : Err) : Notice :=
  { icon := "error", title := "Error", text := sendOtpErrorMessage e }

/-- What one handler invocation produces: the next controller state, the
resulting store, the notice shown (if any), and whether the email
collaborator (`emailjs.send`) was invoked. -/
structure HandlerOut where
  state : ControllerState
  db : DB
  notice : Option Notice
  emailSent : Bool
deriving DecidableEq, Repr

/-- External inputs to one `handleSendOtp` invocation: the clock, the
generated 6-digit code, the store-assigned row id, and injected failures
for the lookup, the insert and the email dispatch. -/
structure SendEnv where
  now : Nat
  genOtp : String
  newId : String
  failLookup : Option Err
  failCreate : Option Err
  failEmail : Option Err

/-- Embedding of `handleSendOtp` (component lines 68-124): reject empty email, look up
the user, abort with a notice when absent, otherwise create an OTP row,
dispatch the email, and move to the `otp` step; every caught error is
classified by `sendOtpErrorMessage`. -/
def handleSendOtp (st : ControllerState) (db : DB) (env : SendEnv) : HandlerOut :=
  if st.formData.email = "" then
    { state := st, db := db, notice := some missingEmailNotice, emailSent := false }
  else
    match getUserByEmail st.formData.email db env.failLookup with
    | .error e =>
      { state := st, db := db, notice := some (sendOtpErrorNotice e), emailSent := false }
    | .ok none =>
      { state := st, db := db, notice := some userNotFoundNotice, emailSent := false }
    | .ok (some _) =>
      match createPasswordResetOtp st.formData.email env.genOtp env.now env.newId db env.failCreate with
      | (.error e, db1) =>
        { state := st, db := db1, notice := some (sendOtpErrorNotice e), emailSent := false }
      | (.ok _, db1) =>
        match env.failEmail with
        | some e =>
          { state := st, db := db1, notice := some (sendOtpErrorNotice e), emailSent := true }
        | none =>
          { state := { st with step := Step.otp }, db := db1
            notice := some otpSentNotice, emailSent := true }

/-- External inputs to one `handleVerifyOtp` invocation. -/
structure VerifyEnv where
  now : Nat
  failSelect : Option Err
  failUpdate : Option Err

/-- Embedding of `handleVerifyOtp` (component lines 126-159): reject empty code, call
`verifyPasswordResetOtp`; `false` shows the invalid-OTP notice and stays,
a thrown error shows a generic notice and stays, `true` moves to the
`password` step. -/
def handleVerifyOtp (st : ControllerState) (db : DB) (env : VerifyEnv) : HandlerOut :=
  if st.formData.otp = "" then
    { state := st, db := db, notice := some missingOtpNotice, emailSent := false }
  else
    match verifyPasswordResetOtp st.formData.email st.formData.otp env.now db env.failSelect env.failUpdate with
    | (.ok false, db1) =>
      { state := st, db := db1, notice := some invalidOtpNotice, emailSent := false }
    | (.ok true, db1) =>
      { state := { st with step := Step.password }, db := db1, notice := none, emailSent := false }
    | (.error _, db1) =>
      { state := st, db := db1, notice := some verifyFailedNotice, emailSent := false }

/-- External inputs to one `handleResetPassword` invocation. -/
structure ResetEnv where
  failLookup : Option Err
  failUpdate : Option Err

/-- Embedding of `handleResetPassword` (component lines 161-206): reject empty or
mismatched passwords, call `resetPassword`; success shows a confirmation,
clears every form field and returns to the `email` step; failure shows a
generic notice and stays. -/
def handleResetPassword (st : ControllerState) (db : DB) (env : ResetEnv) : HandlerOut :=
  if st.formData.newPassword = "" || st.formData.confirmPassword = "" then
    { state := st, db := db, notice := some missingFieldsNotice, emailSent := false }
  else if st.formData.newPassword ≠ st.formData.confirmPassword then
    { state := st, db := db, notice := some passwordMismatchNotice, emailSent := false }
  else
    match resetPassword st.formData.email st.formData.newPassword db env.failLookup env.failUpdate with
    | (.ok _, db1) =>
      { state := { formData := emptyForm, step := Step.email }, db := db1
        notice := some resetSuccessNotice, emailSent := false }
    | (.error _, db1) =>
      { state := st, db := db1, notice := some resetFailedNotice, emailSent := false }

/-- Embedding of `handleInputChange`: writes the value into the form field named
`name` (the four controlled inputs of the component). -/
def setField (fd : FormData) (name value : String) : FormData :=
  if name = "email" then { fd with email := value }
  else if name = "otp" then { fd with otp := value }
  else if name = "newPassword" then { fd with newPassword := value }
  else if name = "confirmPassword" then { fd with confirmPassword := value }
  else fd

/-- The input fields the component renders in each step (component lines
221-342): only the `email` step renders the email input. -/
def editableFields : Step → List String
  | Step.email => ["email"]
  | Step.otp => ["otp"]
  | Step.password => ["newPassword", "confirmPassword"]

/-- A user action on the rendered page: typing into a field, or
submitting the form of the current step (with the environment's
responses to the calls that submission triggers). -/
inductive Event where
  | input (name value : String)
  | submitEmail (env : SendEnv)
  | submitOtp (env : VerifyEnv)
  | submitPassword (env : ResetEnv)

/-- The transition one event induces on controller state and store. -/
def stepEvent (st : ControllerState) (db : DB) : Event → ControllerState × DB
  | Event.input n v => ({ st with formData := setField st.formData n v }, db)
  | Event.submitEmail env => ((handleSendOtp st db env).state, (handleSendOtp st db env).db)
  | Event.submitOtp env => ((handleVerifyOtp st db env).state, (handleVerifyOtp st db env).db)
  | Event.submitPassword env =>
    ((handleResetPassword st db env).state, (handleResetPassword st db env).db)

/-- An event the rendered page can actually emit in state `st`: typing is
possible only into the inputs the current step renders, and each form can
only be submitted while its step is shown. -/
def validEvent (st : ControllerState) : Event → Prop
  | Event.input n _ => n ∈ editableFields st.step
  | Event.submitEmail _ => st.step = Step.email
  | Event.submitOtp _ => st.step = Step.otp
  | Event.submitPassword _ => st.step = Step.password

/-- States reachable from `s` by valid events none of which lands back in
the `email` step (i.e. the run between leaving `email` and completing
the flow). -/
inductive ReachNE : ControllerState × DB → ControllerState × DB → Prop
  | refl (s : ControllerState × DB) : ReachNE s s
  | tail {s t : ControllerState × DB} (e : Event) (hv : validEvent t.1 e)
      (hne : t.1.step ≠ Step.email) :
      ReachNE s t → ReachNE s (stepEvent t.1 t.2 e)

/-! ## Helper lemmas -/

theorem newerOf_eq_or (a b : PasswordResetOtp) : newerOf a b = a ∨ newerOf a b = b := by
  unfold newerOf
  split
  · exact Or.inr rfl
  · exact Or.inl rfl

theorem le_newerOf_left (a b : PasswordResetOtp) :
    a.created_at ≤ (newerOf a b).created_at := by
  unfold newerOf
  split
  · omega
  · exact Nat.le_refl _

theorem le_newerOf_right (a b : PasswordResetOtp) :
    b.created_at ≤ (newerOf a b).created_at := by
  unfold newerOf
  split
  · exact Nat.le_refl _
  · omega

theorem foldl_newerOf_mem (rs : List PasswordResetOtp) (a : PasswordResetOtp) :
    rs.foldl newerOf a = a ∨ rs.foldl newerOf a ∈ rs := by
  induction rs generalizing a with
  | nil => exact Or.inl rfl
  | cons b bs ih =>
    simp only [List.foldl_cons]
    rcases ih (newerOf a b) with h | h
    · rw [h]
      rcases newerOf_eq_or a b with h2 | h2
      · exact Or.inl h2
      · rw [h2]
        exact Or.inr (List.mem_cons_self b bs)
    · exact Or.inr (List.mem_cons_of_mem b h)

theorem foldl_newerOf_le (rs : List PasswordResetOtp) (a : PasswordResetOtp) :
    a.created_at ≤ (rs.foldl newerOf a).created_at := by
  induction rs generalizing a with
  | nil => exact Nat.le_refl _
  | cons b bs ih =>
    simp only [List.foldl_cons]
    exact Nat.le_trans (le_newerOf_left a b) (ih (newerOf a b))

theorem foldl_newerOf_max (rs : List PasswordResetOtp) (a : PasswordResetOtp) :
    ∀ s ∈ rs, s.created_at ≤ (rs.foldl newerOf a).created_at := by
  induction rs generalizing a with
  | nil => intro s hs; cases hs
  | cons b bs ih =>
    intro s hs
    simp only [List.foldl_cons]
    rcases List.mem_cons.mp hs with rfl | hs
    · exact Nat.le_trans (le_newerOf_right a s) (foldl_newerOf_le bs (newerOf a s))
    · exact ih (newerOf a b) s hs

theorem pickNewest_mem {l : List PasswordResetOtp} {r : PasswordResetOtp}
    (h : pickNewest l = some r) : r ∈ l := by
  cases l with
  | nil => cases h
  | cons a rs =>
    simp only [pickNewest, Option.some.injEq] at h
    subst h
    rcases foldl_newerOf_mem rs a with h | h
    · rw [h]
      exact List.mem_cons_self a rs
    · exact List.mem_cons_of_mem a h

theorem pickNewest_max {l : List PasswordResetOtp} {r : PasswordResetOtp}
    (h : pickNewest l = some r) : ∀ s ∈ l, s.created_at ≤ r.created_at := by
  cases l with
  | nil => cases h
  | cons a rs =>
    simp only [pickNewest, Option.some.injEq] at h
    subst h
    intro s hs
    rcases List.mem_cons.mp hs with rfl | hs
    · exact foldl_newerOf_le rs s
    · exact foldl_newerOf_max rs a s hs

/-! ## Concrete stores used by witnesses and counterexamples -/

def rowOne : PasswordResetOtp :=
  { id := "9", email := "a@x.com", otp := "111111", created_at := 0
    expires_at := 600000, used := false }

def dbOne : DB := { users := [], otps := [rowOne] }

def rowOld : PasswordResetOtp :=
  { id := "1", email := "b@x.com", otp := "123456", created_at := 0
    expires_at := 600000, used := false }

def rowNew : PasswordResetOtp :=
  { id := "2", email := "b@x.com", otp := "123456", created_at := 1
    expires_at := 600001, used := false }

/-- Two unused, unexpired rows carrying the same `(email, otp)` pair. -/
def dbTwo : DB := { users := [], otps := [rowOld, rowNew] }

def rowUsed : PasswordResetOtp :=
  { id := "u1", email := "a@x.com", otp := "222222", created_at := 0
    expires_at := 900000, used := true }

def rowExpired : PasswordResetOtp :=
  { id := "u2", email := "a@x.com", otp := "222222", created_at := 1
    expires_at := 3, used := false }

/-- One already-used row (still unexpired) and one expired row. -/
def dbStale : DB := { users := [], otps := [rowUsed, rowExpired] }

def userA : AppUser :=
  { full_name := "A", email := "a@x.com", password := "old", status := Status.Approved }

def dbUsers : DB := { users := [userA], otps := [] }

/-! ## Claim theorems -/

/-- C1: `verifyPasswordResetOtp` selects the newest row matching the
email and code with `used = false` and `expires_at` in the future; when
no such row exists or the lookup errors it returns `false` (store
unchanged); on a match it marks that row used and returns `true`, and a
failure during the mark-as-used update propagates as an error. -/
theorem verifyOtp_contract (email otp : String) (now : Nat) (db : DB)
    (failSelect failUpdate : Option Err) :
    ((failSelect ≠ none ∨ otpMatches email otp now db = []) →
      verifyPasswordResetOtp email otp now db failSelect failUpdate = (.ok false, db)) ∧
    (failSelect = none →
      ∀ r, pickNewest (otpMatches email otp now db) = some r →
        (r ∈ otpMatches email otp now db ∧
          ∀ s ∈ otpMatches email otp now db, s.created_at ≤ r.created_at) ∧
        (∀ e, failUpdate = some e →
          verifyPasswordResetOtp email otp now db failSelect failUpdate = (.error e, db)) ∧
        (failUpdate = none →
          verifyPasswordResetOtp email otp now db failSelect failUpdate =
            (.ok true, markUsed db r.id))) := by
  constructor
  · intro h
    unfold verifyPasswordResetOtp
    cases failSelect with
    | some e => rfl
    | none =>
      rcases h with h | h
      · exact absurd rfl h
      · rw [h]
        rfl
  · intro hsel r hr
    subst hsel
    refine ⟨⟨pickNewest_mem hr, pickNewest_max hr⟩, ?_, ?_⟩
    · intro e he
      subst he
      unfold verifyPasswordResetOtp
      rw [hr]
    · intro hupd
      subst hupd
      unfold verifyPasswordResetOtp
      rw [hr]

/-- Witness for C1: on a one-row store the code is accepted and the row
is marked used. -/
theorem verifyOtp_contract_witness :
    verifyPasswordResetOtp "a@x.com" "111111" 5 dbOne none none =
      (.ok true, markUsed dbOne "9") :=
  ((verifyOtp_contract "a@x.com" "111111" 5 dbOne none none).2 rfl rowOne
    (by decide)).2.2 rfl

/-- C2 counterexample: on a store holding two unused, unexpired rows with
the same `(email, otp)` pair, a second verification with the same email
and code succeeds again (against the older row) instead of failing. -/
theorem verifyOtp_twice_counterexample :
    (verifyPasswordResetOtp "b@x.com" "123456" 10 dbTwo none none).1 = .ok true ∧
    (verifyPasswordResetOtp "b@x.com" "123456" 10
      (verifyPasswordResetOtp "b@x.com" "123456" 10 dbTwo none none).2 none none).1 =
      .ok true := by
  decide

/-- C2 (amended): when the matched row `r` is the only row matching the
email and code that is unused and unexpired, verification succeeds
exactly once: it returns `true` and marks `r` used, and any later
verification attempt with the same email and code returns `false`. -/
theorem verifyOtp_exactlyOnce (email otp : String) (now now' : Nat) (db : DB)
    (r : PasswordResetOtp) (hm : otpMatches email otp now db = [r])
    (hn : now ≤ now') :
    verifyPasswordResetOtp email otp now db none none = (.ok true, markUsed db r.id) ∧
    verifyPasswordResetOtp email otp now' (markUsed db r.id) none none =
      (.ok false, markUsed db r.id) := by
  constructor
  · unfold verifyPasswordResetOtp
    rw [hm]
    rfl
  · have hempty : otpMatches email otp now' (markUsed db r.id) = [] := by
      unfold otpMatches markUsed
      rw [List.filter_eq_nil_iff]
      intro q hq hp
      obtain ⟨q0, hq0, rfl⟩ := List.mem_map.mp hq
      by_cases hid : q0.id = r.id
      · rw [if_pos hid] at hp
        simp only [Bool.and_eq_true, decide_eq_true_eq] at hp
        exact absurd hp.1.2 (by simp)
      · rw [if_neg hid] at hp
        simp only [Bool.and_eq_true, decide_eq_true_eq] at hp
        obtain ⟨⟨⟨he, ho⟩, hu⟩, hexp⟩ := hp
        have hq0m : q0 ∈ otpMatches email otp now db := by
          unfold otpMatches
          rw [List.mem_filter]
          refine ⟨hq0, ?_⟩
          simp only [Bool.and_eq_true, decide_eq_true_eq]
          exact ⟨⟨⟨he, ho⟩, hu⟩, by omega⟩
        rw [hm] at hq0m
        exact hid (by rw [List.mem_singleton.mp hq0m])
    unfold verifyPasswordResetOtp
    rw [hempty]
    rfl

/-- Witness for the amended C2: on a one-row store the code verifies
once, and a later attempt with the same email and code fails. -/
theorem verifyOtp_exactlyOnce_witness :
    verifyPasswordResetOtp "a@x.com" "111111" 5 dbOne none none =
      (.ok true, markUsed dbOne "9") ∧
    verifyPasswordResetOtp "a@x.com" "111111" 7 (markUsed dbOne "9") none none =
      (.ok false, markUsed dbOne "9") :=
  verifyOtp_exactlyOnce "a@x.com" "111111" 5 7 dbOne rowOne (by decide) (by decide)

/-- C4: when every row matching the email and code is either already used
or expired at `now`, verification returns `false` and the store is
unchanged. -/
theorem verifyOtp_staleRows (email otp : String) (now : Nat) (db : DB)
    (failSelect failUpdate : Option Err)
    (h : ∀ r ∈ db.otps, r.email = email → r.otp = otp →
      r.used = true ∨ r.expires_at ≤ now) :
    verifyPasswordResetOtp email otp now db failSelect failUpdate = (.ok false, db) := by
  have hm : otpMatches email otp now db = [] := by
    unfold otpMatches
    rw [List.filter_eq_nil_iff]
    intro r hr hp
    simp only [Bool.and_eq_true, decide_eq_true_eq] at hp
    obtain ⟨⟨⟨he, ho⟩, hu⟩, hexp⟩ := hp
    rcases h r hr he ho with hu2 | he2
    · rw [hu2] at hu
      cases hu
    · omega
  unfold verifyPasswordResetOtp
  cases failSelect with
  | some e => rfl
  | none =>
    rw [hm]
    rfl

/-- Witness for C4: a used row and an expired row both fail verification
at a time when the used row's `expires_at` is still in the future. -/
theorem verifyOtp_staleRows_witness :
    verifyPasswordResetOtp "a@x.com" "222222" 700000 dbStale none none =
      (.ok false, dbStale) :=
  verifyOtp_staleRows "a@x.com" "222222" 700000 dbStale none none (by decide)

/-- C3: `resetPassword` fails with the `'User not found'` error and
leaves the store unchanged when no user carries the email; otherwise it
succeeds, leaves the OTP table alone, and every user row with that email
ends with the new password and status Pending (rows with other emails
are untouched). -/
theorem resetPassword_contract (email newPassword : String) (db : DB) :
    (db.users.filter (fun u => u.email = email) = [] →
      resetPassword email newPassword db none none = (.error userNotFoundErr, db)) ∧
    (∀ u, db.users.filter (fun v => v.email = email) = [u] →
      (resetPassword email newPassword db none none).1 = .ok () ∧
      (resetPassword email newPassword db none none).2.otps = db.otps ∧
      ∀ v ∈ (resetPassword email newPassword db none none).2.users,
        (v.email = email → v.password = newPassword ∧ v.status = Status.Pending) ∧
        (v.email ≠ email → v ∈ db.users)) := by
  constructor
  · intro h
    have hg : getUserByEmail email db none = .ok none := by
      unfold getUserByEmail
      rw [h]
    unfold resetPassword
    rw [hg]
  · intro u hu
    have hg : getUserByEmail email db none = .ok (some u) := by
      unfold getUserByEmail
      rw [hu]
    unfold resetPassword
    rw [hg]
    refine ⟨rfl, rfl, ?_⟩
    intro v hv
    obtain ⟨w, hw, rfl⟩ := List.mem_map.mp hv
    by_cases hwe : w.email = email
    · rw [if_pos hwe]
      exact ⟨fun _ => ⟨rfl, rfl⟩, fun hne => absurd hwe hne⟩
    · rw [if_neg hwe]
      exact ⟨fun he => absurd he hwe, fun _ => hw⟩

/-- Witness for C3: resetting the password of an existing (Approved)
user succeeds and leaves the OTP table unchanged. -/
theorem resetPassword_contract_witness :
    (resetPassword "a@x.com" "NewPass1!" dbUsers none none).1 = .ok () ∧
    (resetPassword "a@x.com" "NewPass1!" dbUsers none none).2.otps = dbUsers.otps := by
  have h := (resetPassword_contract "a@x.com" "NewPass1!" dbUsers).2 userA (by decide)
  exact ⟨h.1, h.2.1⟩

/-- C5: a successful `createPasswordResetOtp` returns the stored row,
appends exactly that one row to the OTP table (users untouched), the row
has `expires_at` = creation time + 10 minutes and `used = false`; a
backing failure with code `'42501'` or a message containing
`'permission'` is replaced by the distinguished `rlsErr`. -/
theorem createOtp_contract (email otp : String) (now : Nat) (newId : String) (db : DB) :
    ((createPasswordResetOtp email otp now newId db none).1 =
        .ok (mkOtpRow email otp now newId) ∧
      (createPasswordResetOtp email otp now newId db none).2.otps =
        db.otps ++ [mkOtpRow email otp now newId] ∧
      (createPasswordResetOtp email otp now newId db none).2.users = db.users ∧
      (mkOtpRow email otp now newId).expires_at = now + 10 * 60 * 1000 ∧
      (mkOtpRow email otp now newId).used = false) ∧
    (∀ e : Err, e.code = some "42501" ∨ strIncludes e.message "permission" = true →
      createPasswordResetOtp email otp now newId db (some e) = (.error rlsErr, db)) := by
  refine ⟨⟨rfl, rfl, rfl, rfl, rfl⟩, ?_⟩
  intro e he
  rcases he with h | h
  · simp [createPasswordResetOtp, h]
  · simp [createPasswordResetOtp, h]

/-- Witness for C5: a `42501` backing failure surfaces as `rlsErr`. -/
theorem createOtp_contract_witness :
    createPasswordResetOtp "a@x.com" "333333" 0 "n1" dbOne
      (some { code := some "42501", message := "denied" }) = (.error rlsErr, dbOne) :=
  (createOtp_contract "a@x.com" "333333" 0 "n1" dbOne).2
    { code := some "42501", message := "denied" } (Or.inl rfl)

/-- C6: `cleanupExpiredOtps` succeeds, leaves the user table unchanged,
and an OTP row remains stored exactly when it was stored before and its
`expires_at` is not strictly in the past. -/
theorem cleanupExpiredOtps_contract (now : Nat) (db : DB) :
    (cleanupExpiredOtps now db none).1 = .ok () ∧
    (cleanupExpiredOtps now db none).2.users = db.users ∧
    ∀ r : PasswordResetOtp,
      r ∈ (cleanupExpiredOtps now db none).2.otps ↔
        r ∈ db.otps ∧ ¬ r.expires_at < now := by
  refine ⟨rfl, rfl, ?_⟩
  intro r
  unfold cleanupExpiredOtps
  simp [List.mem_filter]

/-- Witness for C6: an unexpired row survives a cleanup that removes the
expired one. -/
theorem cleanupExpiredOtps_contract_witness :
    rowUsed ∈ (cleanupExpiredOtps 700000 dbStale none).2.otps :=
  ((cleanupExpiredOtps_contract 700000 dbStale).2.2 rowUsed).mpr ⟨by decide, by decide⟩

/-- C7: `getUserByEmail` returns the single matching row when exactly
one exists, a plain `none` (not an error) when no row matches, maps an
injected `PGRST116` backing error to `none` as well, and propagates any
other backing error. -/
theorem getUserByEmail_contract (email : String) (db : DB) :
    (∀ u, db.users.filter (fun v => v.email = email) = [u] →
      getUserByEmail email db none = .ok (some u)) ∧
    (db.users.filter (fun v => v.email = email) = [] →
      getUserByEmail email db none = .ok none) ∧
    (∀ e : Err, e.code ≠ some "PGRST116" →
      getUserByEmail email db (some e) = .error e) ∧
    (∀ e : Err, e.code = some "PGRST116" →
      getUserByEmail email db (some e) = .ok none) := by
  refine ⟨?_, ?_, ?_, ?_⟩
  · intro u hu
    unfold getUserByEmail
    rw [hu]
  · intro h
    unfold getUserByEmail
    rw [h]
  · intro e he
    simp [getUserByEmail, he]
  · intro e he
    simp [getUserByEmail, he]

/-- Witness for C7: the lookup finds the one stored user. -/
theorem getUserByEmail_contract_witness :
    getUserByEmail "a@x.com" dbUsers none = .ok (some userA) :=
  (getUserByEmail_contract "a@x.com" dbUsers).1 userA (by decide)

/-- C8: in the `otp` step, a `false` verification result keeps the
controller in `otp` and shows the invalid-OTP notice; a thrown error is
handled the same way (an error-icon notice is shown and the step stays
`otp`); the step becomes `password` exactly when verification returned
`true`. -/
theorem handleVerifyOtp_transitions (st : ControllerState) (db : DB) (env : VerifyEnv)
    (hstep : st.step = Step.otp) (hotp : st.formData.otp ≠ "") :
    ((verifyPasswordResetOtp st.formData.email st.formData.otp env.now db
        env.failSelect env.failUpdate).1 = .ok false →
      (handleVerifyOtp st db env).state.step = Step.otp ∧
      (handleVerifyOtp st db env).notice = some invalidOtpNotice ∧
      invalidOtpNotice.icon = "error") ∧
    (∀ e, (verifyPasswordResetOtp st.formData.email st.formData.otp env.now db
        env.failSelect env.failUpdate).1 = .error e →
      (handleVerifyOtp st db env).state.step = Step.otp ∧
      (handleVerifyOtp st db env).notice = some verifyFailedNotice ∧
      verifyFailedNotice.icon = "error") ∧
    ((verifyPasswordResetOtp st.formData.email st.formData.otp env.now db
        env.failSelect env.failUpdate).1 = .ok true ↔
      (handleVerifyOtp st db env).state.step = Step.password) := by
  rcases hv : verifyPasswordResetOtp st.formData.email st.formData.otp env.now db
      env.failSelect env.failUpdate with ⟨res, db1⟩
  cases res with
  | error e =>
    have hout : handleVerifyOtp st db env =
        { state := st, db := db1, notice := some verifyFailedNotice, emailSent := false } := by
      simp [handleVerifyOtp, hotp, hv]
    refine ⟨?_, ?_, ?_⟩
    · intro h
      simp at h
    · intro e' _
      rw [hout]
      exact ⟨hstep, rfl, rfl⟩
    · constructor
      · intro h
        simp at h
      · intro h
        rw [hout] at h
        rw [hstep] at h
        cases h
  | ok b =>
    cases b with
    | false =>
      have hout : handleVerifyOtp st db env =
          { state := st, db := db1, notice := some invalidOtpNotice, emailSent := false } := by
        simp [handleVerifyOtp, hotp, hv]
      refine ⟨?_, ?_, ?_⟩
      · intro _
        rw [hout]
        exact ⟨hstep, rfl, rfl⟩
      · intro e' he'
        simp at he'
      · constructor
        · intro h
          simp at h
        · intro h
          rw [hout] at h
          rw [hstep] at h
          cases h
    | true =>
      have hout : handleVerifyOtp st db env =
          { state := { st with step := Step.password }, db := db1
            notice := none, emailSent := false } := by
        simp [handleVerifyOtp, hotp, hv]
      refine ⟨?_, ?_, ?_⟩
      · intro h
        simp at h
      · intro e' he'
        simp at he'
      · constructor
        · intro _
          rw [hout]
        · intro _
          rfl

def stateOtpFilled : ControllerState :=
  { formData := { email := "a@x.com", otp := "111111", newPassword := "", confirmPassword := "" }
    step := Step.otp }

def envVerify : VerifyEnv := { now := 5, failSelect := none, failUpdate := none }

/-- Witness for C8: a correct in-window code moves the concrete
controller to the `password` step. -/
theorem handleVerifyOtp_transitions_witness :
    (handleVerifyOtp stateOtpFilled dbOne envVerify).state.step = Step.password :=
  (handleVerifyOtp_transitions stateOtpFilled dbOne envVerify rfl
    (by decide)).2.2.mp (by decide)

/-- C9: in the `email` step, a not-found lookup result aborts the flow:
the controller state is unchanged (so it stays in `email`), the
user-not-found notice is shown, the store is unchanged (no OTP row
created) and the email collaborator is never invoked. -/
theorem handleSendOtp_userNotFound (st : ControllerState) (db : DB) (env : SendEnv)
    (hstep : st.step = Step.email) (hne : st.formData.email ≠ "")
    (hlookup : getUserByEmail st.formData.email db env.failLookup = .ok none) :
    handleSendOtp st db env =
      { state := st, db := db, notice := some userNotFoundNotice, emailSent := false } ∧
    (handleSendOtp st db env).state.step = Step.email := by
  have h1 : handleSendOtp st db env =
      { state := st, db := db, notice := some userNotFoundNotice, emailSent := false } := by
    simp [handleSendOtp, hne, hlookup]
  refine ⟨h1, ?_⟩
  rw [h1]
  exact hstep

def stateEmailMissing : ControllerState :=
  { formData := { email := "missing@x.com", otp := "", newPassword := "", confirmPassword := "" }
    step := Step.email }

def envSend : SendEnv :=
  { now := 0, genOtp := "123456", newId := "n1"
    failLookup := none, failCreate := none, failEmail := none }

/-- Witness for C9: requesting a reset for an absent account leaves the
concrete controller and store untouched and sends nothing. -/
theorem handleSendOtp_userNotFound_witness :
    handleSendOtp stateEmailMissing dbUsers envSend =
      { state := stateEmailMissing, db := dbUsers
        notice := some userNotFoundNotice, emailSent := false } :=
  (handleSendOtp_userNotFound stateEmailMissing dbUsers envSend rfl
    (by decide) (by decide)).1

/-- Lemma: `handleVerifyOtp` never touches the form fields. -/
theorem handleVerifyOtp_formData (st : ControllerState) (db : DB) (env : VerifyEnv) :
    (handleVerifyOtp st db env).state.formData = st.formData := by
  unfold handleVerifyOtp
  split
  · rfl
  · split <;> rfl

/-- Lemma: `handleResetPassword` either leaves the form fields alone or ends in
the `email` step (the success branch, which clears every field). -/
theorem handleResetPassword_cases (st : ControllerState) (db : DB) (env : ResetEnv) :
    (handleResetPassword st db env).state.formData = st.formData ∨
    (handleResetPassword st db env).state.step = Step.email := by
  unfold handleResetPassword
  split
  · exact Or.inl rfl
  · split
    · exact Or.inl rfl
    · split
      · exact Or.inr rfl
      · exact Or.inl rfl

/-- One valid event fired outside the `email` step that does not land
back in `email` preserves the email form field. -/
theorem stepEvent_email_stable (st : ControllerState) (db : DB) (e : Event)
    (hv : validEvent st e) (h1 : st.step ≠ Step.email)
    (h2 : (stepEvent st db e).1.step ≠ Step.email) :
    (stepEvent st db e).1.formData.email = st.formData.email := by
  cases e with
  | input n v =>
    simp only [validEvent] at hv
    cases hst : st.step with
    | email => exact absurd hst h1
    | otp =>
      rw [hst] at hv
      simp only [editableFields, List.mem_singleton] at hv
      subst hv
      simp [stepEvent, setField]
    | password =>
      rw [hst] at hv
      simp only [editableFields, List.mem_cons, List.mem_singleton,
        List.not_mem_nil, or_false] at hv
      rcases hv with hv | hv <;> subst hv <;> simp [stepEvent, setField]
  | submitEmail env =>
    exact absurd hv h1
  | submitOtp env =>
    show (handleVerifyOtp st db env).state.formData.email = st.formData.email
    rw [handleVerifyOtp_formData]
  | submitPassword env =>
    rcases handleResetPassword_cases st db env with h | h
    · show (handleResetPassword st db env).state.formData.email = st.formData.email
      rw [h]
    · exact absurd h h2

/-- C10: along any run of valid events that starts outside the `email`
step and has not yet returned to it, the email form field never changes;
hence `verifyPasswordResetOtp` (called on `formData.email` in the `otp`
step) and `resetPassword` (called on `formData.email` in the `password`
step) always receive the email that was looked up in step 1. -/
theorem email_field_stable (s t : ControllerState × DB) (h : ReachNE s t)
    (_hs : s.1.step ≠ Step.email) (ht : t.1.step ≠ Step.email) :
    t.1.formData.email = s.1.formData.email := by
  revert ht
  induction h with
  | refl =>
    intro _
    rfl
  | tail e hv hne hr ih =>
    intro ht'
    rw [stepEvent_email_stable _ _ _ hv hne ht']
    exact ih hne

def stateOtpStart : ControllerState :=
  { formData := { email := "a@x.com", otp := "", newPassword := "", confirmPassword := "" }
    step := Step.otp }

/-- Witness for C10: typing a code in the `otp` step leaves the email
field exactly as it was. -/
theorem email_field_stable_witness :
    (stepEvent stateOtpStart dbOne (Event.input "otp" "111111")).1.formData.email =
      stateOtpStart.formData.email :=
  email_field_stable (stateOtpStart, dbOne)
    (stepEvent stateOtpStart dbOne (Event.input "otp" "111111"))
    (ReachNE.tail (Event.input "otp" "111111")
      (by simp [validEvent, stateOtpStart, editableFields])
      (by decide) (ReachNE.refl (stateOtpStart, dbOne)))
    (by decide) (by decide)

end KVSHS
